import Mathlib

/-!
# Drill-alert server (`src/server.js`): a shallow embedding

The Express/socket.io server keeps four sqlite tables and a socket.io room
registry.  Each route handler is embedded as a pure function from the server
state (and the outcome of the external calls it makes: the clock, sqlite
errors, the Twilio client) to the new state, the list of effects it performed
in order, and the JSON response.

String values read from a request body are modelled as `Option String`
(`none` = missing / `null` / `undefined`).  The ids of a POST /mark-safe body
are modelled as `Option Nat`: absent / `null`, or a non-negative integer
literal, which `JSON.parse` turns into the nearest IEEE-754 double.
-/

namespace DrillAlert

/-! ## JavaScript helpers -/

/-- JavaScript truthiness of a value that is either absent or a string:
`null`, `undefined` and `""` are falsy, every other string is truthy. -/
def truthy : Option String → Bool
  | none => false
  | some s => s != ""

/-- The expression `v || d` for a string-or-absent `v` and a string default `d`. -/
def orDefault (v : Option String) (d : String) : String :=
  match v with
  | none => d
  | some s => if s != "" then s else d

/-- String interpolation of a value that is a string or `null`. -/
def interp : Option String → String
  | none => "null"
  | some s => s

/-- The number of low bits a natural number loses when it is cut down to 53
significant bits; the first argument bounds the recursion. -/
def dropBits : Nat → Nat → Nat
  | 0, _ => 0
  | fuel + 1, n => if n < 2 ^ 53 then 0 else dropBits fuel (n / 2) + 1

/-- The JavaScript number `JSON.parse` yields for the non-negative integer
literal `n`: the nearest IEEE-754 double, ties to even, itself an integer;
`2 ^ 1024` stands for `Infinity`. -/
def jsonNumber (n : Nat) : Nat :=
  if n < 2 ^ 53 then n
  else
    let e := dropBits n n
    let q := n / 2 ^ e
    let r := n % 2 ^ e
    let half := 2 ^ (e - 1)
    let q1 := if half < r ∨ (r = half ∧ q % 2 = 1) then q + 1 else q
    if 1024 ≤ dropBits (q1 * 2 ^ e) (q1 * 2 ^ e) + 52 then 2 ^ 1024 else q1 * 2 ^ e

/-- The number sqlite compares an INTEGER column with when the bound
parameter is the decimal text of `n` (a URL parameter): the integer itself
when it fits 64 bits, else the nearest double. -/
def urlNumber (n : Nat) : Nat :=
  if n < 2 ^ 63 then n else jsonNumber n

/-- Comparison of two TEXT values under sqlite's BINARY collation:
lexicographic on the characters. -/
def textLe (a b : String) : Prop := a.toList ≤ b.toList

instance textLe_decidable (a b : String) : Decidable (textLe a b) := by
  unfold textLe; infer_instance

/-! ## Tables (`db.serialize`, lines 45-75) -/

/-- A row of `teachers`. -/
structure TeacherRow where
  id : Nat
  username : String
  password : String
  name : Option String
deriving DecidableEq

/-- A row of `students`. -/
structure StudentRow where
  id : Nat
  username : String
  password : String
  name : Option String
  cls : Option String
  parentPhone : Option String
deriving DecidableEq

/-- A row of `drills`. -/
structure DrillRow where
  id : Nat
  type : String
  cls : String
  message : Option String
  startedBy : Option String
  startedAt : String
deriving DecidableEq

/-- A row of `responses`; `drillId` and `studentId` are whatever number the
request carried, or NULL. -/
structure ResponseRow where
  id : Nat
  drillId : Option Nat
  studentId : Option Nat
  time : String
deriving DecidableEq

/-- The sqlite database: every table in rowid order, and the AUTOINCREMENT
counters of `drills` and `responses` (the largest id handed out so far). -/
structure Db where
  teachers : List TeacherRow
  students : List StudentRow
  drills : List DrillRow
  responses : List ResponseRow
  drillSeq : Nat
  responseSeq : Nat
deriving DecidableEq

/-! ## socket.io registry (lines 78-86) -/

/-- The socket.io server: the connected socket ids, and the room membership
as (room, socket id) pairs. -/
structure Io where
  sockets : List Nat
  rooms : List (String × Nat)
deriving DecidableEq

/-- The whole server state. -/
structure Server where
  db : Db
  io : Io
deriving DecidableEq

/-- The `data` object of a `join` message (the fields the server reads). -/
structure JoinData where
  role : Option String
  cls : Option String
deriving DecidableEq

/-- The call `socket.join(room)`: rooms are sets, so adding a member that is
already present changes nothing. -/
def socketJoin (sid : Nat) (room : String) (io : Io) : Io :=
  if (room, sid) ∈ io.rooms then io
  else { io with rooms := io.rooms ++ [(room, sid)] }

/-- The handler `socket.on("join", ...)` (lines 80-85); `data = none` is a
message without payload. -/
def join (sid : Nat) (data : Option JoinData) (io : Io) : Io :=
  match data with
  | none => io
  | some d =>
    let io1 := if truthy d.cls then socketJoin sid ("class:" ++ interp d.cls) io else io
    if truthy d.role then socketJoin sid ("role:" ++ interp d.role) io1 else io1

/-- Where an `emit` is addressed: `io.to(room)` or the whole server `io`. -/
inductive Target where
  | room (key : String)
  | all
deriving DecidableEq

/-- The sockets an `emit` to the target is delivered to, one entry per
delivery. -/
def recipients (io : Io) : Target → List Nat
  | Target.all => io.sockets
  | Target.room key => (io.rooms.filter (fun m => m.1 = key)).map (fun m => m.2)

/-! ## Effects -/

/-- The `alertRecord` object of line 194; `id = none` is the absent
`lastID` of a failed insert. -/
structure AlertRecord where
  id : Option Nat
  type : String
  cls : String
  message : Option String
  startedBy : Option String
  startedAt : String
deriving DecidableEq

/-- The payload of an emitted event. -/
inductive Payload where
  | alert (record : AlertRecord)
  | responded (drillId studentId : Option Nat) (time : String)
deriving DecidableEq

/-- What a handler does to the outside, in the order it does it. -/
inductive Effect where
  | insertDrill (type cls : String) (message startedBy : Option String) (startedAt : String)
  | insertResponse (drillId studentId : Option Nat) (time : String)
  | consoleError (text : String)
  | selectStudents (cls : String)
  | smsCreate (toAddr body : String)
  | consoleLog (text : String)
  | emit (target : Target) (event : String) (payload : Payload)
deriving DecidableEq

/-! ## POST /send-alert (lines 184-223) -/

/-- The request body of POST /send-alert. -/
structure AlertReq where
  type : Option String
  cls : Option String
  message : Option String
  startedBy : Option String
deriving DecidableEq

/-- What the outside does during one POST /send-alert: the clock, whether
the two sqlite statements fail, whether the Twilio client is configured, and
for the roster row at position `i` the outcome of `messages.create`
(`none` = resolved, `some e` = rejected with message `e`). -/
structure AlertEnv where
  now : String
  insertErr : Bool
  queryErr : Bool
  twilioClient : Bool
  create : Nat → Option String

/-- One entry of `results` / `details`; `toAddr` is the field `to`. -/
structure SendResult where
  ok : Bool
  toAddr : Option String
  error : Option String
  simulated : Bool
deriving DecidableEq

/-- The JSON response of POST /send-alert. -/
inductive AlertResponse where
  | failure (message : String)
  | success (total sent failed : Nat) (details : List SendResult)
deriving DecidableEq

/-- The SMS text of line 202. -/
def alertBody (type : String) (message startedBy : Option String) : String :=
  type ++ " Alert: " ++ orDefault message "" ++ " — Your child\x27s school: "
    ++ orDefault startedBy "School" ++ ". Please remain calm."

/-- The body of `rows.map` (lines 200-210) for the roster row at position
`i`: the effect it performs and the value its promise resolves to. -/
def sendOne (env : AlertEnv) (type : String) (message startedBy : Option String)
    (i : Nat) (r : StudentRow) : Effect × SendResult :=
  let toAddr := r.parentPhone
  let body := alertBody type message startedBy
  if env.twilioClient && truthy toAddr then
    match env.create i with
    | none => (Effect.smsCreate (interp toAddr) body, ⟨true, toAddr, none, false⟩)
    | some e => (Effect.smsCreate (interp toAddr) body, ⟨false, toAddr, some e, false⟩)
  else
    (Effect.consoleLog ("[ALERT LOG] Would send to " ++ interp toAddr ++ " : " ++ body),
      ⟨truthy toAddr, toAddr, none, true⟩)

/-- The list `sendPromises` with the results `Promise.all` collects, for the
roster rows from position `i` on. -/
def sendPromises (env : AlertEnv) (type : String) (message startedBy : Option String) :
    Nat → List StudentRow → List (Effect × SendResult)
  | _, [] => []
  | i, r :: rs => sendOne env type message startedBy i r
      :: sendPromises env type message startedBy (i + 1) rs

/-- The query `SELECT ... FROM students WHERE class = ?`. -/
def roster (db : Db) (cls : String) : List StudentRow :=
  db.students.filter (fun s => s.cls = some cls)

/-- The statement `INSERT INTO drills (...)` when it succeeds. -/
def insertDrillRow (db : Db) (type cls : String) (message startedBy : Option String)
    (startedAt : String) : Db :=
  { db with
    drills := db.drills ++ [⟨db.drillSeq + 1, type, cls, message, startedBy, startedAt⟩]
    drillSeq := db.drillSeq + 1 }

/-- The handler of POST /send-alert. -/
def sendAlert (env : AlertEnv) (req : AlertReq) (s : Server) :
    Server × List Effect × AlertResponse :=
  if !truthy req.cls || !truthy req.type then
    (s, [], AlertResponse.failure "type and class required")
  else
    let type := interp req.type
    let cls := interp req.cls
    let startedAt := env.now
    let db1 := if env.insertErr then s.db
      else insertDrillRow s.db type cls req.message req.startedBy startedAt
    let logged := if env.insertErr then [Effect.consoleError "drill insert error"] else []
    let alertRecord : AlertRecord :=
      ⟨if env.insertErr then none else some (s.db.drillSeq + 1),
        type, cls, req.message, req.startedBy, startedAt⟩
    let before := Effect.insertDrill type cls req.message req.startedBy startedAt
      :: logged ++ [Effect.selectStudents cls]
    if env.queryErr then
      ({ s with db := db1 }, before, AlertResponse.failure "DB error")
    else
      let sent := sendPromises env type req.message req.startedBy 0 (roster db1 cls)
      let results := sent.map (fun p => p.2)
      let emits := [Effect.emit (Target.room ("class:" ++ cls)) "alert" (Payload.alert alertRecord),
        Effect.emit (Target.room "role:student") "alert" (Payload.alert alertRecord)]
      let nsent := (results.filter (fun r => r.ok)).length
      let failed := results.length - nsent
      ({ s with db := db1 }, before ++ sent.map (fun p => p.1) ++ emits,
        AlertResponse.success results.length nsent failed results)

/-! ## POST /mark-safe (lines 226-234) -/

/-- What the outside does during one POST /mark-safe. -/
structure MarkSafeEnv where
  now : String
  insertErr : Bool

/-- A response that is a success flag with, on failure, a message. -/
inductive FlagResponse where
  | failure (message : String)
  | success
deriving DecidableEq

/-- The statement `INSERT INTO responses (...)` when it succeeds. -/
def insertResponseRow (db : Db) (drillId studentId : Option Nat) (time : String) : Db :=
  { db with
    responses := db.responses ++ [⟨db.responseSeq + 1, drillId, studentId, time⟩]
    responseSeq := db.responseSeq + 1 }

/-- The handler of POST /mark-safe; the arguments are the `drillId` and
`studentId` of the JSON body as written by the client, which the handler
sees after `JSON.parse`. -/
def markSafe (env : MarkSafeEnv) (bodyDrillId bodyStudentId : Option Nat) (s : Server) :
    Server × List Effect × FlagResponse :=
  let drillId := bodyDrillId.map jsonNumber
  let studentId := bodyStudentId.map jsonNumber
  let time := env.now
  if env.insertErr then
    (s, [Effect.insertResponse drillId studentId time], FlagResponse.failure "DB error")
  else
    ({ s with db := insertResponseRow s.db drillId studentId time },
      [Effect.insertResponse drillId studentId time,
        Effect.emit Target.all "studentResponded" (Payload.responded drillId studentId time)],
      FlagResponse.success)

/-! ## GET /responses/:drillId (lines 237-243) -/

/-- The JSON response of a read route: a failure message or the rows. -/
inductive QueryResponse (α : Type) where
  | failure (message : String)
  | success (rows : List α)
deriving DecidableEq

/-- A row of the join of `responses` with `students`. -/
structure ResponseView where
  id : Nat
  drillId : Option Nat
  studentId : Option Nat
  time : String
  username : String
  name : Option String
  cls : Option String
deriving DecidableEq

/-- The query `SELECT r.*, s.username, s.name, s.class FROM responses r
JOIN students s ON r.studentId = s.id WHERE r.drillId = ?` for the number
the parameter compares as; a NULL column equals nothing. -/
def responsesRows (drillId : Nat) (db : Db) : List ResponseView :=
  (db.responses.filter (fun r => r.drillId = some drillId)).flatMap (fun r =>
    (db.students.filter (fun s => r.studentId = some s.id)).map (fun s =>
      ⟨r.id, r.drillId, r.studentId, r.time, s.username, s.name, s.cls⟩))

/-- The handler of GET /responses/:drillId for the URL parameter written as
the decimal digits of `drillId`; `err` is the sqlite error flag. -/
def responses (err : Bool) (drillId : Nat) (db : Db) : QueryResponse ResponseView :=
  if err then QueryResponse.failure "DB error" else QueryResponse.success (responsesRows (urlNumber drillId) db)

/-! ## GET /reports (lines 245-254) -/

/-- A row of the reports query. -/
structure ReportRow where
  drillId : Nat
  type : String
  cls : String
  startedAt : String
  startedBy : Option String
  responsesCount : Nat
deriving DecidableEq

/-- The sort key of `ORDER BY d.startedAt DESC`: `a` may precede `b`. -/
def startedAtDesc (a b : DrillRow) : Prop := textLe b.startedAt a.startedAt

instance startedAtDesc_decidable : DecidableRel startedAtDesc := by
  intro a b; unfold startedAtDesc; infer_instance

/-- The sub-select `(SELECT COUNT(*) FROM responses r WHERE r.drillId = d.id)`. -/
def responsesCount (db : Db) (drillId : Nat) : Nat :=
  (db.responses.filter (fun r => r.drillId = some drillId)).length

/-- The reports query: `drills` is scanned in rowid order and sorted on the
single key `startedAt`, descending, by sqlite's stable sorter, so rows with
equal keys keep their scan order. -/
def reportsRows (db : Db) : List ReportRow :=
  (db.drills.insertionSort startedAtDesc).map (fun d =>
    ⟨d.id, d.type, d.cls, d.startedAt, d.startedBy, responsesCount db d.id⟩)

/-- The handler of GET /reports; `err` is the sqlite error flag. -/
def reports (err : Bool) (db : Db) : QueryResponse ReportRow :=
  if err then QueryResponse.failure "DB error" else QueryResponse.success (reportsRows db)

/-! ## POST /login (lines 91-110) -/

/-- The request body of POST /login. -/
structure LoginReq where
  role : Option String
  username : Option String
  password : String
deriving DecidableEq

/-- The two credential tables. -/
inductive Table where
  | teachers
  | students
deriving DecidableEq

/-- The row `db.get` hands to the callback: the columns the handler reads
(`class` is absent from a `teachers` row). -/
structure UserRow where
  id : Nat
  username : String
  password : String
  name : Option String
  cls : Option String
deriving DecidableEq

/-- The `user` object of a successful login. -/
structure User where
  id : Nat
  username : String
  name : String
  cls : Option String
  role : Option String
deriving DecidableEq

/-- The JSON response of POST /login. -/
inductive LoginResponse where
  | failure (message : String)
  | success (user : User)
deriving DecidableEq

/-- What the outside does during one POST /login: the sqlite error flag and
`bcrypt.compareSync`. -/
structure LoginEnv where
  getErr : Bool
  compareSync : String → String → Bool

/-- Line 93: the table name chosen from the request's role. -/
def loginTable (role : Option String) : Table :=
  if role = some "teacher" then Table.teachers else Table.students

/-- The query `SELECT * FROM <table> WHERE username = ?` through `db.get`:
the first matching row, none for a `null` parameter. -/
def getByUsername (db : Db) (table : Table) (username : Option String) : Option UserRow :=
  match username with
  | none => none
  | some u =>
    match table with
    | Table.teachers =>
      (db.teachers.find? (fun t => t.username = u)).map
        (fun t => ⟨t.id, t.username, t.password, t.name, none⟩)
    | Table.students =>
      (db.students.find? (fun t => t.username = u)).map
        (fun t => ⟨t.id, t.username, t.password, t.name, t.cls⟩)

/-- The handler of POST /login: the table it queried and its response. -/
def login (env : LoginEnv) (req : LoginReq) (db : Db) : Table × LoginResponse :=
  let table := loginTable req.role
  if env.getErr then (table, LoginResponse.failure "DB error")
  else
    match getByUsername db table req.username with
    | none => (table, LoginResponse.failure "User not found")
    | some row =>
      if !env.compareSync req.password row.password then
        (table, LoginResponse.failure "Wrong password")
      else
        (table, LoginResponse.success
          ⟨row.id, row.username, orDefault row.name row.username, row.cls, req.role⟩)

/-- The deliveries (socket, event, payload) a list of effects causes, given
the registry at the time. -/
def deliveries (io : Io) (effects : List Effect) : List (Nat × String × Payload) :=
  effects.flatMap (fun e =>
    match e with
    | Effect.emit target event payload => (recipients io target).map (fun sid => (sid, event, payload))
    | _ => [])

/-! ## Concrete states and requests -/

/-- The database right after `db.serialize`: four empty tables. -/
def Db.empty : Db := ⟨[], [], [], [], 0, 0⟩

/-- A server with no data and no connected socket. -/
def Server.empty : Server := ⟨Db.empty, ⟨[], []⟩⟩

/-- Five students of ClassA, all with a parent phone, and one of ClassB. -/
def sampleStudents : List StudentRow :=
  [⟨1, "u1", "h1", some "Asha", some "ClassA", some "+911"⟩,
   ⟨2, "u2", "h2", some "Bala", some "ClassA", some "+912"⟩,
   ⟨3, "u3", "h3", some "Chitra", some "ClassA", some "+913"⟩,
   ⟨4, "u4", "h4", some "Dev", some "ClassA", some "+914"⟩,
   ⟨5, "u5", "h5", some "Esha", some "ClassA", some "+915"⟩,
   ⟨6, "u6", "h6", some "Farid", some "ClassB", none⟩]

/-- A server holding the sample students, socket 7 in room `role:teacher`
and socket 8 connected without a room. -/
def sampleServer : Server :=
  ⟨⟨[], sampleStudents, [], [], 0, 0⟩, ⟨[7, 8], [("role:teacher", 7)]⟩⟩

/-- A fire alert for ClassA. -/
def fireReq : AlertReq := ⟨some "fire", some "ClassA", some "Evacuate", some "Ms Rao"⟩

/-- An outside in which everything works, Twilio is configured, and the
sends to roster positions 1 and 3 are rejected. -/
def twoFail : AlertEnv :=
  ⟨"2026-01-01T10:00:00.000Z", false, false, true,
    fun i => if i = 1 ∨ i = 3 then some "unreachable" else none⟩

/-- An outside without Twilio in which everything else works. -/
def plainEnv : AlertEnv := ⟨"2026-01-01T10:00:00.000Z", false, false, false, fun _ => none⟩

/-- An outside like `twoFail` in which the drill insert fails as well. -/
def twoFailNoRow : AlertEnv :=
  ⟨"2026-01-01T10:00:00.000Z", true, false, true,
    fun i => if i = 1 ∨ i = 3 then some "unreachable" else none⟩

/-- An outside with Twilio configured in which the drill insert and the
roster query both fail. -/
def bothFail : AlertEnv := ⟨"2026-01-01T10:00:00.000Z", true, true, true, fun _ => none⟩

/-- A database in which the username "u3" exists both as a teacher and as a
student, with different password hashes. -/
def staffDb : Db :=
  ⟨[⟨1, "u3", "t3", some "Ms Rao"⟩], sampleStudents, [], [], 0, 0⟩

/-- An outside with Twilio configured in which the drill insert fails. -/
def insertFails : AlertEnv := ⟨"2026-01-01T10:00:00.000Z", true, false, true, fun _ => none⟩

/-- A mark-safe request time at which the insert succeeds. -/
def safeEnv : MarkSafeEnv := ⟨"2026-01-01T09:00:00.000Z", false⟩

/-- The sample server after its first drill and one response to it by
student 3. -/
def respondedServer : Server :=
  (markSafe safeEnv (some 1) (some 3) (sendAlert plainEnv fireReq sampleServer).1).1

/-- The empty server after one POST /mark-safe for drill id 1, which does
not exist yet, by student 42. -/
def orphanServer : Server := (markSafe safeEnv (some 1) (some 42) Server.empty).1

/-- The empty server after two POST /send-alert requests that read the same
clock value. -/
def tieServer : Server :=
  (sendAlert plainEnv fireReq (sendAlert plainEnv fireReq Server.empty).1).1

/-! ## Lemmas on the send loop -/

theorem truthy_some (v : Option String) (x : String) (h : v = some x) (hx : x ≠ "") :
    truthy v = true := by
  subst h; simp [truthy, hx]

theorem roster_insertDrillRow (db : Db) (type cls : String) (message startedBy : Option String)
    (startedAt c : String) :
    roster (insertDrillRow db type cls message startedBy startedAt) c = roster db c := rfl

theorem sendPromises_length (env : AlertEnv) (type : String) (message startedBy : Option String)
    (rs : List StudentRow) (k : Nat) :
    (sendPromises env type message startedBy k rs).length = rs.length := by
  induction rs generalizing k with
  | nil => rfl
  | cons r rs ih => simp [sendPromises, ih]

theorem sendPromises_getElem? (env : AlertEnv) (type : String) (message startedBy : Option String)
    (rs : List StudentRow) (k i : Nat) (r : StudentRow) (h : rs[i]? = some r) :
    (sendPromises env type message startedBy k rs)[i]?
      = some (sendOne env type message startedBy (k + i) r) := by
  induction rs generalizing k i with
  | nil => simp at h
  | cons a rs ih =>
    cases i with
    | zero =>
      simp at h
      simp [sendPromises, h]
    | succ j =>
      simp at h
      have := ih (k + 1) j h
      simp only [sendPromises, List.getElem?_cons_succ, this]
      congr 2
      omega

theorem sendOne_toAddr (env : AlertEnv) (type : String) (message startedBy : Option String)
    (i : Nat) (r : StudentRow) :
    (sendOne env type message startedBy i r).2.toAddr = r.parentPhone := by
  simp only [sendOne]
  split_ifs
  · cases env.create i <;> rfl
  · rfl

theorem sendOne_ok (env : AlertEnv) (type : String) (message startedBy : Option String)
    (i : Nat) (r : StudentRow) :
    (sendOne env type message startedBy i r).2.ok
      = (truthy r.parentPhone && (!env.twilioClient || (env.create i).isNone)) := by
  simp only [sendOne]
  cases ht : env.twilioClient <;> cases hp : truthy r.parentPhone <;>
    cases hc : env.create i <;> simp [hp]

theorem sendPromises_toAddr (env : AlertEnv) (type : String) (message startedBy : Option String)
    (rs : List StudentRow) (k : Nat) :
    ((sendPromises env type message startedBy k rs).map (fun p => p.2)).map (fun d => d.toAddr)
      = rs.map (fun r => r.parentPhone) := by
  induction rs generalizing k with
  | nil => rfl
  | cons r rs ih =>
    simp only [sendPromises, List.map_cons, sendOne_toAddr]
    rw [ih]

theorem sendPromises_simulated (env : AlertEnv) (type : String) (message startedBy : Option String)
    (rs : List StudentRow) (k : Nat) (h : env.twilioClient = false) :
    (sendPromises env type message startedBy k rs).map (fun p => p.2)
      = rs.map (fun r => (⟨truthy r.parentPhone, r.parentPhone, none, true⟩ : SendResult)) := by
  induction rs generalizing k with
  | nil => rfl
  | cons r rs ih =>
    simp only [sendPromises, List.map_cons]
    rw [ih]
    simp [sendOne, h]

theorem sendPromises_sms_mem (env : AlertEnv) (type : String) (message startedBy : Option String)
    (rs : List StudentRow) (k : Nat) (r : StudentRow) (hr : r ∈ rs)
    (ht : env.twilioClient = true) (hp : truthy r.parentPhone = true) :
    Effect.smsCreate (interp r.parentPhone) (alertBody type message startedBy)
      ∈ (sendPromises env type message startedBy k rs).map (fun p => p.1) := by
  induction rs generalizing k with
  | nil => simp at hr
  | cons a rs ih =>
    simp only [sendPromises, List.map_cons, List.mem_cons]
    rcases List.mem_cons.mp hr with h | h
    · left
      subst h
      simp only [sendOne, ht, hp, Bool.and_self, if_true]
      cases env.create k <;> rfl
    · right
      exact ih (k + 1) h

/-- The handler on a request that passes validation and whose roster query
succeeds, written out. -/
theorem sendAlert_valid_eq (env : AlertEnv) (req : AlertReq) (s : Server) (type cls : String)
    (ht : req.type = some type) (hte : type ≠ "") (hc : req.cls = some cls) (hce : cls ≠ "")
    (hq : env.queryErr = false) :
    sendAlert env req s =
      ({ s with db := if env.insertErr then s.db
            else insertDrillRow s.db type cls req.message req.startedBy env.now },
        (Effect.insertDrill type cls req.message req.startedBy env.now
            :: (if env.insertErr then [Effect.consoleError "drill insert error"] else [])
              ++ [Effect.selectStudents cls])
          ++ (sendPromises env type req.message req.startedBy 0 (roster s.db cls)).map (fun p => p.1)
          ++ [Effect.emit (Target.room ("class:" ++ cls)) "alert"
                (Payload.alert ⟨if env.insertErr then none else some (s.db.drillSeq + 1),
                  type, cls, req.message, req.startedBy, env.now⟩),
              Effect.emit (Target.room "role:student") "alert"
                (Payload.alert ⟨if env.insertErr then none else some (s.db.drillSeq + 1),
                  type, cls, req.message, req.startedBy, env.now⟩)],
        AlertResponse.success
          ((sendPromises env type req.message req.startedBy 0 (roster s.db cls)).map
            (fun p => p.2)).length
          (((sendPromises env type req.message req.startedBy 0 (roster s.db cls)).map
            (fun p => p.2)).filter (fun r => r.ok)).length
          (((sendPromises env type req.message req.startedBy 0 (roster s.db cls)).map
              (fun p => p.2)).length
            - (((sendPromises env type req.message req.startedBy 0 (roster s.db cls)).map
              (fun p => p.2)).filter (fun r => r.ok)).length)
          ((sendPromises env type req.message req.startedBy 0 (roster s.db cls)).map
            (fun p => p.2))) := by
  have h1 : truthy (some type) = true := truthy_some _ _ rfl hte
  have h2 : truthy (some cls) = true := truthy_some _ _ rfl hce
  cases hi : env.insertErr <;>
    simp [sendAlert, h1, h2, hq, hi, ht, hc, interp, roster_insertDrillRow]

/-- The state after a request that passes validation, whatever the roster
query does. -/
theorem sendAlert_valid_state (env : AlertEnv) (req : AlertReq) (s : Server) (type cls : String)
    (ht : req.type = some type) (hte : type ≠ "") (hc : req.cls = some cls) (hce : cls ≠ "") :
    (sendAlert env req s).1
      = { s with db := if env.insertErr then s.db
            else insertDrillRow s.db type cls req.message req.startedBy env.now } := by
  have h1 : truthy (some type) = true := truthy_some _ _ rfl hte
  have h2 : truthy (some cls) = true := truthy_some _ _ rfl hce
  cases hi : env.insertErr <;> cases hq : env.queryErr <;>
    simp [sendAlert, h1, h2, hq, hi, ht, hc, interp]

/-! ## POST /send-alert: validation (C4) -/

/-- C4: a POST /send-alert request whose type or class is missing or empty is
answered with success = false and the message "type and class required";
the server state (store and rooms) is returned unchanged and the handler
performs no effect at all: no insert, no roster query, no bridge call, no
emit. -/
theorem sendAlert_rejects_missing_field (env : AlertEnv) (req : AlertReq) (s : Server)
    (h : truthy req.type = false ∨ truthy req.cls = false) :
    sendAlert env req s = (s, [], AlertResponse.failure "type and class required") := by
  rcases h with h | h <;> simp [sendAlert, h]

theorem sendAlert_rejects_missing_field_witness :
    (truthy (some "") = false ∨ truthy (some "ClassA") = false)
      ∧ sendAlert twoFail ⟨some "", some "ClassA", some "Evacuate", none⟩ sampleServer
        = (sampleServer, [], AlertResponse.failure "type and class required") :=
  ⟨Or.inl (by decide),
    sendAlert_rejects_missing_field twoFail ⟨some "", some "ClassA", some "Evacuate", none⟩
      sampleServer (Or.inl (by decide))⟩

/-! ## POST /send-alert: a failed drill insert (C1) -/

/-- C1, as stated, fails: with the drill insert failing, the handler still
answers success = true, still calls the bridge for the roster and still emits
the alert to the class room. -/
theorem sendAlert_insert_failure_not_aborted :
    (sendAlert insertFails fireReq sampleServer).2.2
        = AlertResponse.success 5 5 0
            [⟨true, some "+911", none, false⟩, ⟨true, some "+912", none, false⟩,
             ⟨true, some "+913", none, false⟩, ⟨true, some "+914", none, false⟩,
             ⟨true, some "+915", none, false⟩]
      ∧ Effect.smsCreate "+911"
          "fire Alert: Evacuate — Your child\x27s school: Ms Rao. Please remain calm."
          ∈ (sendAlert insertFails fireReq sampleServer).2.1
      ∧ Effect.emit (Target.room "class:ClassA") "alert"
          (Payload.alert ⟨none, "fire", "ClassA", some "Evacuate", some "Ms Rao",
            "2026-01-01T10:00:00.000Z"⟩)
          ∈ (sendAlert insertFails fireReq sampleServer).2.1 := by
  decide

/-- The handler on a request that passes validation and whose roster query
fails, written out. -/
theorem sendAlert_query_failure_eq (env : AlertEnv) (req : AlertReq) (s : Server)
    (type cls : String)
    (ht : req.type = some type) (hte : type ≠ "") (hc : req.cls = some cls) (hce : cls ≠ "")
    (hq : env.queryErr = true) :
    (sendAlert env req s).2
      = (Effect.insertDrill type cls req.message req.startedBy env.now
            :: (if env.insertErr then [Effect.consoleError "drill insert error"] else [])
              ++ [Effect.selectStudents cls],
          AlertResponse.failure "DB error") := by
  have h1 : truthy (some type) = true := truthy_some _ _ rfl hte
  have h2 : truthy (some cls) = true := truthy_some _ _ rfl hce
  cases hi : env.insertErr <;>
    simp [sendAlert, h1, h2, hq, hi, ht, hc, interp]

/-- C1, amended: when the drill insert fails, the handler logs the error and
carries on: the store is left unchanged and the roster is still queried.
If the roster query succeeds, the bridge is called for every roster student
with a phone when Twilio is configured, the alert (with no id) is emitted to
the class room and to role:student, and the response is success = true with
total = the roster size.  If the roster query fails too, the response is
success = false with message "DB error" and nothing is sent or emitted. -/
theorem sendAlert_insert_failure_continues (env : AlertEnv) (req : AlertReq) (s : Server)
    (type cls : String)
    (ht : req.type = some type) (hte : type ≠ "") (hc : req.cls = some cls) (hce : cls ≠ "")
    (hi : env.insertErr = true) :
    (sendAlert env req s).1 = s
      ∧ Effect.consoleError "drill insert error" ∈ (sendAlert env req s).2.1
      ∧ Effect.selectStudents cls ∈ (sendAlert env req s).2.1
      ∧ (env.queryErr = false →
          (∃ sent failed details, (sendAlert env req s).2.2
              = AlertResponse.success (roster s.db cls).length sent failed details)
          ∧ (∀ r ∈ roster s.db cls, env.twilioClient = true → truthy r.parentPhone = true →
              Effect.smsCreate (interp r.parentPhone) (alertBody type req.message req.startedBy)
                ∈ (sendAlert env req s).2.1)
          ∧ Effect.emit (Target.room ("class:" ++ cls)) "alert"
              (Payload.alert ⟨none, type, cls, req.message, req.startedBy, env.now⟩)
              ∈ (sendAlert env req s).2.1
          ∧ Effect.emit (Target.room "role:student") "alert"
              (Payload.alert ⟨none, type, cls, req.message, req.startedBy, env.now⟩)
              ∈ (sendAlert env req s).2.1)
      ∧ (env.queryErr = true →
          (sendAlert env req s).2
            = ([Effect.insertDrill type cls req.message req.startedBy env.now,
                Effect.consoleError "drill insert error", Effect.selectStudents cls],
              AlertResponse.failure "DB error")) := by
  have hstate := sendAlert_valid_state env req s type cls ht hte hc hce
  simp only [hi, if_true] at hstate
  have hfail : ∀ hq : env.queryErr = true, (sendAlert env req s).2
      = ([Effect.insertDrill type cls req.message req.startedBy env.now,
          Effect.consoleError "drill insert error", Effect.selectStudents cls],
        AlertResponse.failure "DB error") := by
    intro hq
    rw [sendAlert_query_failure_eq env req s type cls ht hte hc hce hq]
    simp [hi]
  refine ⟨hstate, ?_, ?_, ?_, hfail⟩
  · cases hq : env.queryErr
    · rw [sendAlert_valid_eq env req s type cls ht hte hc hce hq]
      simp [hi]
    · rw [hfail hq]
      simp
  · cases hq : env.queryErr
    · rw [sendAlert_valid_eq env req s type cls ht hte hc hce hq]
      simp
    · rw [hfail hq]
      simp
  · intro hq
    rw [sendAlert_valid_eq env req s type cls ht hte hc hce hq]
    simp only [hi, if_true]
    refine ⟨?_, ?_, ?_, ?_⟩
    · simp only [List.length_map, sendPromises_length]
      exact ⟨_, _, _, rfl⟩
    · intro r hr htw hp
      have := sendPromises_sms_mem env type req.message req.startedBy _ 0 r hr htw hp
      simp only [List.mem_append]
      exact Or.inl (Or.inr this)
    · simp
    · simp

theorem sendAlert_insert_failure_continues_witness :
    ((sendAlert insertFails fireReq sampleServer).1 = sampleServer
      ∧ Effect.consoleError "drill insert error" ∈ (sendAlert insertFails fireReq sampleServer).2.1
      ∧ Effect.selectStudents "ClassA" ∈ (sendAlert insertFails fireReq sampleServer).2.1
      ∧ (insertFails.queryErr = false →
          (∃ sent failed details, (sendAlert insertFails fireReq sampleServer).2.2
              = AlertResponse.success (roster sampleServer.db "ClassA").length sent failed details)
          ∧ (∀ r ∈ roster sampleServer.db "ClassA", insertFails.twilioClient = true →
              truthy r.parentPhone = true →
              Effect.smsCreate (interp r.parentPhone)
                  (alertBody "fire" fireReq.message fireReq.startedBy)
                ∈ (sendAlert insertFails fireReq sampleServer).2.1)
          ∧ Effect.emit (Target.room ("class:" ++ "ClassA")) "alert"
              (Payload.alert ⟨none, "fire", "ClassA", fireReq.message, fireReq.startedBy,
                insertFails.now⟩)
              ∈ (sendAlert insertFails fireReq sampleServer).2.1
          ∧ Effect.emit (Target.room "role:student") "alert"
              (Payload.alert ⟨none, "fire", "ClassA", fireReq.message, fireReq.startedBy,
                insertFails.now⟩)
              ∈ (sendAlert insertFails fireReq sampleServer).2.1)
      ∧ (insertFails.queryErr = true →
          (sendAlert insertFails fireReq sampleServer).2
            = ([Effect.insertDrill "fire" "ClassA" fireReq.message fireReq.startedBy
                  insertFails.now,
                Effect.consoleError "drill insert error", Effect.selectStudents "ClassA"],
              AlertResponse.failure "DB error")))
      ∧ (sendAlert bothFail fireReq sampleServer).2
          = ([Effect.insertDrill "fire" "ClassA" fireReq.message fireReq.startedBy bothFail.now,
              Effect.consoleError "drill insert error", Effect.selectStudents "ClassA"],
            AlertResponse.failure "DB error") :=
  ⟨sendAlert_insert_failure_continues insertFails fireReq sampleServer "fire" "ClassA"
      rfl (by decide) rfl (by decide) rfl,
    (sendAlert_insert_failure_continues bothFail fireReq sampleServer "fire" "ClassA"
      rfl (by decide) rfl (by decide) rfl).2.2.2.2 rfl⟩

/-! ## POST /send-alert: fan-out (C2) -/

/-- C2, as stated, fails: with the drill insert failing and the bridge
rejecting 2 of 5 targets, the response is success = true with total = 5,
sent = 3, failed = 2, but no drill row has been inserted. -/
theorem sendAlert_counts_without_drill_row :
    (sendAlert twoFailNoRow fireReq sampleServer).2.2
        = AlertResponse.success 5 3 2
            [⟨true, some "+911", none, false⟩, ⟨false, some "+912", some "unreachable", false⟩,
             ⟨true, some "+913", none, false⟩, ⟨false, some "+914", some "unreachable", false⟩,
             ⟨true, some "+915", none, false⟩]
      ∧ (sendAlert twoFailNoRow fireReq sampleServer).1.db.drills = [] := by
  decide

/-- C2, amended: for a request that passes validation and a roster query
that succeeds, whatever the per-student bridge outcomes are, the response is
success = true with total = the roster size n, details holding one entry per
roster student in roster order (entry i carries student i's phone and is ok
exactly when that student has a phone and the bridge, if configured, resolved
for position i), sent = the number of ok entries, failed = n - sent and
sent + failed = total; the resulting store does not depend on the bridge
outcomes: it contains the new drill row when the drill insert succeeded and
is the unchanged store when the insert failed. -/
theorem sendAlert_fan_out (env : AlertEnv) (req : AlertReq) (s : Server) (type cls : String)
    (ht : req.type = some type) (hte : type ≠ "") (hc : req.cls = some cls) (hce : cls ≠ "")
    (hq : env.queryErr = false) :
    ∃ sent failed details,
      (sendAlert env req s).2.2
          = AlertResponse.success (roster s.db cls).length sent failed details
        ∧ details.length = (roster s.db cls).length
        ∧ details.map (fun d => d.toAddr) = (roster s.db cls).map (fun r => r.parentPhone)
        ∧ (∀ i r, (roster s.db cls)[i]? = some r →
            ∃ d, details[i]? = some d
              ∧ d.ok = (truthy r.parentPhone && (!env.twilioClient || (env.create i).isNone)))
        ∧ sent = (details.filter (fun d => d.ok)).length
        ∧ failed = (roster s.db cls).length - sent
        ∧ sent + failed = (roster s.db cls).length
        ∧ (∀ create : Nat → Option String,
            (sendAlert ⟨env.now, env.insertErr, env.queryErr, env.twilioClient, create⟩ req s).1
              = (sendAlert env req s).1)
        ∧ (env.insertErr = false →
            (⟨s.db.drillSeq + 1, type, cls, req.message, req.startedBy, env.now⟩ : DrillRow)
              ∈ (sendAlert env req s).1.db.drills)
        ∧ (env.insertErr = true → (sendAlert env req s).1 = s) := by
  refine ⟨(((sendPromises env type req.message req.startedBy 0 (roster s.db cls)).map
      (fun p => p.2)).filter (fun d => d.ok)).length,
    (roster s.db cls).length
      - (((sendPromises env type req.message req.startedBy 0 (roster s.db cls)).map
        (fun p => p.2)).filter (fun d => d.ok)).length,
    (sendPromises env type req.message req.startedBy 0 (roster s.db cls)).map
      (fun p => p.2), ?_, ?_, ?_, ?_, rfl, rfl, ?_, ?_, ?_, ?_⟩
  · rw [sendAlert_valid_eq env req s type cls ht hte hc hce hq]
    simp only [List.length_map, sendPromises_length]
  · simp only [List.length_map, sendPromises_length]
  · exact sendPromises_toAddr env type req.message req.startedBy _ 0
  · intro i r hr
    refine ⟨(sendOne env type req.message req.startedBy i r).2, ?_, sendOne_ok _ _ _ _ _ _⟩
    have := sendPromises_getElem? env type req.message req.startedBy _ 0 i r hr
    simp only [List.getElem?_map, this, Nat.zero_add, Option.map_some']
  · have hle := List.length_filter_le (fun d : SendResult => d.ok)
      ((sendPromises env type req.message req.startedBy 0 (roster s.db cls)).map (fun p => p.2))
    simp only [List.length_map, sendPromises_length] at hle ⊢
    omega
  · intro create
    rw [sendAlert_valid_eq env req s type cls ht hte hc hce hq,
      sendAlert_valid_eq ⟨env.now, env.insertErr, env.queryErr, env.twilioClient, create⟩
        req s type cls ht hte hc hce hq]
  · intro hi
    rw [sendAlert_valid_eq env req s type cls ht hte hc hce hq]
    simp [hi, insertDrillRow]
  · intro hi
    rw [sendAlert_valid_state env req s type cls ht hte hc hce]
    simp [hi]

theorem sendAlert_fan_out_witness :
    (sendAlert twoFail fireReq sampleServer).2.2
        = AlertResponse.success 5 3 2
            [⟨true, some "+911", none, false⟩, ⟨false, some "+912", some "unreachable", false⟩,
             ⟨true, some "+913", none, false⟩, ⟨false, some "+914", some "unreachable", false⟩,
             ⟨true, some "+915", none, false⟩]
      ∧ ∃ sent failed details,
        (sendAlert twoFail fireReq sampleServer).2.2
            = AlertResponse.success (roster sampleServer.db "ClassA").length sent failed details
          ∧ details.length = (roster sampleServer.db "ClassA").length
          ∧ details.map (fun d => d.toAddr)
              = (roster sampleServer.db "ClassA").map (fun r => r.parentPhone)
          ∧ (∀ i r, (roster sampleServer.db "ClassA")[i]? = some r →
              ∃ d, details[i]? = some d
                ∧ d.ok = (truthy r.parentPhone
                    && (!twoFail.twilioClient || (twoFail.create i).isNone)))
          ∧ sent = (details.filter (fun d => d.ok)).length
          ∧ failed = (roster sampleServer.db "ClassA").length - sent
          ∧ sent + failed = (roster sampleServer.db "ClassA").length
          ∧ (∀ create : Nat → Option String,
              (sendAlert ⟨twoFail.now, twoFail.insertErr, twoFail.queryErr,
                  twoFail.twilioClient, create⟩ fireReq sampleServer).1
                = (sendAlert twoFail fireReq sampleServer).1)
          ∧ (twoFail.insertErr = false →
              (⟨sampleServer.db.drillSeq + 1, "fire", "ClassA", fireReq.message,
                  fireReq.startedBy, twoFail.now⟩ : DrillRow)
                ∈ (sendAlert twoFail fireReq sampleServer).1.db.drills)
          ∧ (twoFail.insertErr = true → (sendAlert twoFail fireReq sampleServer).1 = sampleServer) :=
  ⟨by decide,
    sendAlert_fan_out twoFail fireReq sampleServer "fire" "ClassA"
      rfl (by decide) rfl (by decide) rfl⟩

/-! ## POST /send-alert without Twilio (C9) -/

/-- C9: with `twilioClient` null, the result for every roster student is
simulated and is ok exactly when the student's parentPhone is present
(non-null and non-empty); so a valid request whose roster query succeeds is
answered with details equal to that per-student result in roster order and
sent equal to the number of roster students that have a parentPhone. -/
theorem sendAlert_unconfigured_bridge (env : AlertEnv) (req : AlertReq) (s : Server)
    (type cls : String)
    (ht : req.type = some type) (hte : type ≠ "") (hc : req.cls = some cls) (hce : cls ≠ "")
    (hq : env.queryErr = false) (htw : env.twilioClient = false) :
    (∀ i r, (sendOne env type req.message req.startedBy i r).2.simulated = true
        ∧ ((sendOne env type req.message req.startedBy i r).2.ok = true
            ↔ ∃ p, r.parentPhone = some p ∧ p ≠ ""))
      ∧ (sendAlert env req s).2.2
          = AlertResponse.success (roster s.db cls).length
              ((roster s.db cls).filter (fun r => truthy r.parentPhone)).length
              ((roster s.db cls).length
                - ((roster s.db cls).filter (fun r => truthy r.parentPhone)).length)
              ((roster s.db cls).map
                (fun r => (⟨truthy r.parentPhone, r.parentPhone, none, true⟩ : SendResult))) := by
  constructor
  · intro i r
    simp only [sendOne, htw, Bool.false_and, Bool.false_eq_true, if_false, true_and]
    cases hp : r.parentPhone with
    | none => simp [truthy]
    | some p => simp [truthy]
  · rw [sendAlert_valid_eq env req s type cls ht hte hc hce hq,
      sendPromises_simulated env type req.message req.startedBy _ 0 htw]
    simp only [List.length_map, List.filter_map, Prod.mk.injEq, true_and]
    congr 1

theorem sendAlert_unconfigured_bridge_witness :
    (∀ i r, (sendOne plainEnv "fire" fireReq.message fireReq.startedBy i r).2.simulated = true
        ∧ ((sendOne plainEnv "fire" fireReq.message fireReq.startedBy i r).2.ok = true
            ↔ ∃ p, r.parentPhone = some p ∧ p ≠ ""))
      ∧ (sendAlert plainEnv fireReq sampleServer).2.2
          = AlertResponse.success (roster sampleServer.db "ClassA").length
              ((roster sampleServer.db "ClassA").filter (fun r => truthy r.parentPhone)).length
              ((roster sampleServer.db "ClassA").length
                - ((roster sampleServer.db "ClassA").filter
                    (fun r => truthy r.parentPhone)).length)
              ((roster sampleServer.db "ClassA").map
                (fun r => (⟨truthy r.parentPhone, r.parentPhone, none, true⟩ : SendResult))) :=
  sendAlert_unconfigured_bridge plainEnv fireReq sampleServer "fire" "ClassA"
    rfl (by decide) rfl (by decide) rfl rfl

/-! ## GET /reports: ordering (C5) and a new drill (C3) -/

theorem startedAtDesc_total (a b : DrillRow) : startedAtDesc a b ∨ startedAtDesc b a :=
  le_total b.startedAt.toList a.startedAt.toList

theorem startedAtDesc_trans (a b c : DrillRow) (hab : startedAtDesc a b)
    (hbc : startedAtDesc b c) : startedAtDesc a c :=
  le_trans (α := List Char) hbc hab

theorem textLe_refl (a : String) : textLe a a := le_refl a.toList

/-- Inserting a row with the smallest id into a list sorted by `startedAt`
descending with ties in ascending id keeps that order. -/
theorem orderedInsert_ties (a : DrillRow) (t : List DrillRow)
    (hs : t.Pairwise (fun x y => startedAtDesc x y ∧ (x.startedAt = y.startedAt → x.id < y.id)))
    (hid : ∀ y ∈ t, a.id < y.id) :
    (t.orderedInsert startedAtDesc a).Pairwise
      (fun x y => startedAtDesc x y ∧ (x.startedAt = y.startedAt → x.id < y.id)) := by
  induction t with
  | nil => simp
  | cons b t ih =>
    rw [List.pairwise_cons] at hs
    by_cases hab : startedAtDesc a b
    · rw [List.orderedInsert_of_le _ _ hab]
      refine List.Pairwise.cons ?_ (List.Pairwise.cons hs.1 hs.2)
      intro y hy
      refine ⟨?_, fun _ => hid y hy⟩
      rcases List.mem_cons.mp hy with h | h
      · subst h; exact hab
      · exact startedAtDesc_trans a b y hab (hs.1 y h).1
    · rw [show (b :: t).orderedInsert startedAtDesc a = b :: t.orderedInsert startedAtDesc a
        from if_neg hab]
      refine List.Pairwise.cons ?_ (ih hs.2 (fun y hy => hid y (List.mem_cons_of_mem _ hy)))
      intro z hz
      rcases (List.mem_orderedInsert startedAtDesc).mp hz with h | h
      · subst h
        refine ⟨(startedAtDesc_total b z).resolve_right hab, fun he => ?_⟩
        exact absurd (show startedAtDesc z b by unfold startedAtDesc; rw [he]; exact textLe_refl _) hab
      · exact hs.1 z h

theorem insertionSort_ties (l : List DrillRow) (hid : l.Pairwise (fun a b => a.id < b.id)) :
    (l.insertionSort startedAtDesc).Pairwise
      (fun x y => startedAtDesc x y ∧ (x.startedAt = y.startedAt → x.id < y.id)) := by
  induction l with
  | nil => simp
  | cons a t ih =>
    rw [List.pairwise_cons] at hid
    rw [show (a :: t).insertionSort startedAtDesc
      = (t.insertionSort startedAtDesc).orderedInsert startedAtDesc a from rfl]
    refine orderedInsert_ties a _ (ih hid.2) ?_
    intro y hy
    exact hid.1 y ((List.perm_insertionSort startedAtDesc t).mem_iff.mp hy)

/-- C5, as stated, fails: two drills created at the same clock value are
reported in ascending id order (1 before 2), not descending. -/
theorem reports_tie_ascending_example :
    (reportsRows tieServer.db).map (fun r => (r.drillId, r.startedAt))
      = [(1, "2026-01-01T10:00:00.000Z"), (2, "2026-01-01T10:00:00.000Z")] := by
  decide

/-- C5, amended: for every store whose drills carry increasing ids in table
order, GET /reports returns the drills sorted by startedAt descending, and
any two drills with equal startedAt appear in ascending id order (the
earlier-inserted drill first): the query has no tie-break on id. -/
theorem reports_sorted_ties_ascending (db : Db)
    (hid : db.drills.Pairwise (fun a b => a.id < b.id)) :
    reports false db = QueryResponse.success (reportsRows db)
      ∧ (reportsRows db).map (fun r => r.drillId)
          = (db.drills.insertionSort startedAtDesc).map (fun d => d.id)
      ∧ ((reportsRows db).map (fun r => r.drillId)).Perm (db.drills.map (fun d => d.id))
      ∧ (reportsRows db).Pairwise (fun x y => textLe y.startedAt x.startedAt
          ∧ (x.startedAt = y.startedAt → x.drillId < y.drillId)) := by
  refine ⟨rfl, ?_, ?_, ?_⟩
  · simp [reportsRows]
  · have := (List.perm_insertionSort startedAtDesc db.drills).map (fun d => d.id)
    simpa [reportsRows] using this
  · unfold reportsRows
    exact List.Pairwise.map _ (fun a b h => h) (insertionSort_ties db.drills hid)

theorem reports_sorted_ties_ascending_witness :
    tieServer.db.drills.Pairwise (fun a b => a.id < b.id)
      ∧ (reports false tieServer.db = QueryResponse.success (reportsRows tieServer.db)
      ∧ (reportsRows tieServer.db).map (fun r => r.drillId)
          = (tieServer.db.drills.insertionSort startedAtDesc).map (fun d => d.id)
      ∧ ((reportsRows tieServer.db).map (fun r => r.drillId)).Perm
          (tieServer.db.drills.map (fun d => d.id))
      ∧ (reportsRows tieServer.db).Pairwise (fun x y => textLe y.startedAt x.startedAt
          ∧ (x.startedAt = y.startedAt → x.drillId < y.drillId))) :=
  ⟨by decide, reports_sorted_ties_ascending tieServer.db (by decide)⟩

theorem truthy_true (v : Option String) (h : truthy v = true) : ∃ x, v = some x ∧ x ≠ "" := by
  cases v with
  | none => simp [truthy] at h
  | some x => exact ⟨x, rfl, by simpa [truthy] using h⟩

/-- POST /send-alert keeps every stored drill id at or below the
AUTOINCREMENT counter. -/
theorem sendAlert_drill_ids_bounded (env : AlertEnv) (req : AlertReq) (s : Server)
    (h : ∀ d ∈ s.db.drills, d.id ≤ s.db.drillSeq) :
    ∀ d ∈ (sendAlert env req s).1.db.drills, d.id ≤ (sendAlert env req s).1.db.drillSeq := by
  cases h1 : truthy req.type with
  | false => simpa [sendAlert, h1] using h
  | true =>
    cases h2 : truthy req.cls with
    | false => simpa [sendAlert, h2] using h
    | true =>
      obtain ⟨type, ht, hte⟩ := truthy_true _ h1
      obtain ⟨cls, hc, hce⟩ := truthy_true _ h2
      rw [sendAlert_valid_state env req s type cls ht hte hc hce]
      cases env.insertErr with
      | true => simpa using h
      | false =>
        intro d hd
        simp only [Bool.false_eq_true, if_false, insertDrillRow, List.mem_append,
          List.mem_singleton] at hd ⊢
        rcases hd with hd | hd
        · exact Nat.le_succ_of_le (h d hd)
        · subst hd; exact le_refl _

/-- POST /mark-safe leaves the drills and their counter alone. -/
theorem markSafe_drills (env : MarkSafeEnv) (d st : Option Nat) (s : Server) :
    (markSafe env d st s).1.db.drills = s.db.drills
      ∧ (markSafe env d st s).1.db.drillSeq = s.db.drillSeq := by
  cases hi : env.insertErr <;> simp [markSafe, hi, insertResponseRow]

/-- C3, as stated, fails: after a mark-safe for the not yet existing drill
id 1, creating a drill yields one new report, for drill 1, whose
responsesCount is 1, not 0. -/
theorem reports_new_drill_orphan_example :
    reportsRows orphanServer.db = []
      ∧ reportsRows (sendAlert plainEnv fireReq orphanServer).1.db
          = [⟨1, "fire", "ClassA", "2026-01-01T10:00:00.000Z", some "Ms Rao", 1⟩] := by
  decide

/-- C3, amended: for every store state and every valid (type, class,
message), creating a drill via POST /send-alert (the insert succeeding) and
then reading GET /reports yields the previous reports plus exactly one new
report, whose drillId is the newly assigned id and whose responsesCount is
the number of response rows already stored under that id.  It is 0 whenever
no stored response row carries that id; that holds in particular when every
stored drill id is at most the AUTOINCREMENT counter and every stored
response row references an existing drill. -/
theorem reports_after_new_drill (env : AlertEnv) (req : AlertReq) (s : Server)
    (type cls : String)
    (ht : req.type = some type) (hte : type ≠ "") (hc : req.cls = some cls) (hce : cls ≠ "")
    (hi : env.insertErr = false) :
    (reportsRows (sendAlert env req s).1.db).Perm
        (⟨s.db.drillSeq + 1, type, cls, env.now, req.startedBy,
            responsesCount s.db (s.db.drillSeq + 1)⟩ :: reportsRows s.db)
      ∧ ((∀ r ∈ s.db.responses, r.drillId ≠ some (s.db.drillSeq + 1)) →
          responsesCount s.db (s.db.drillSeq + 1) = 0)
      ∧ ((∀ d ∈ s.db.drills, d.id ≤ s.db.drillSeq) →
          (∀ r ∈ s.db.responses, ∃ d ∈ s.db.drills, r.drillId = some d.id) →
          responsesCount s.db (s.db.drillSeq + 1) = 0) := by
  have hzero : (∀ r ∈ s.db.responses, r.drillId ≠ some (s.db.drillSeq + 1)) →
      responsesCount s.db (s.db.drillSeq + 1) = 0 := by
    intro h
    unfold responsesCount
    rw [List.length_eq_zero, List.filter_eq_nil_iff]
    intro r hr
    simpa using h r hr
  refine ⟨?_, hzero, ?_⟩
  · rw [sendAlert_valid_state env req s type cls ht hte hc hce]
    simp only [hi, Bool.false_eq_true, if_false]
    have hp : ((s.db.drills ++ [(⟨s.db.drillSeq + 1, type, cls, req.message, req.startedBy,
        env.now⟩ : DrillRow)]).insertionSort startedAtDesc).Perm
        (⟨s.db.drillSeq + 1, type, cls, req.message, req.startedBy, env.now⟩
          :: s.db.drills.insertionSort startedAtDesc) :=
      ((List.perm_insertionSort startedAtDesc _).trans (List.perm_append_singleton _ _)).trans
        ((List.perm_insertionSort startedAtDesc s.db.drills).symm.cons _)
    exact hp.map (fun d => (⟨d.id, d.type, d.cls, d.startedAt, d.startedBy,
      responsesCount s.db d.id⟩ : ReportRow))
  · intro hb href
    apply hzero
    intro r hr he
    obtain ⟨d, hd, hrd⟩ := href r hr
    rw [hrd] at he
    have := hb d hd
    have h2 : d.id = s.db.drillSeq + 1 := Option.some.inj he
    omega

theorem reports_after_new_drill_witness :
    (reportsRows (sendAlert plainEnv fireReq respondedServer).1.db).Perm
        (⟨respondedServer.db.drillSeq + 1, "fire", "ClassA", plainEnv.now, fireReq.startedBy,
            responsesCount respondedServer.db (respondedServer.db.drillSeq + 1)⟩
          :: reportsRows respondedServer.db)
      ∧ responsesCount respondedServer.db (respondedServer.db.drillSeq + 1) = 0 :=
  ⟨(reports_after_new_drill plainEnv fireReq respondedServer "fire" "ClassA"
      rfl (by decide) rfl (by decide) rfl).1,
    (reports_after_new_drill plainEnv fireReq respondedServer "fire" "ClassA"
      rfl (by decide) rfl (by decide) rfl).2.2 (by decide) (by decide)⟩

/-! ## POST /mark-safe then GET /responses (C6) -/

theorem jsonNumber_of_le (n : Nat) (h : n ≤ 2 ^ 53) : jsonNumber n = n := by
  rcases Nat.lt_or_eq_of_le h with h1 | h1
  · unfold jsonNumber; rw [if_pos h1]
  · subst h1; decide

theorem urlNumber_of_le (n : Nat) (h : n ≤ 2 ^ 53) : urlNumber n = n := by
  unfold urlNumber
  rw [if_pos (lt_of_le_of_lt h (by decide))]

theorem students_filter_id_length (l : List StudentRow) (st : Nat)
    (hk : (l.map (fun x => x.id)).Nodup) (hs : st ∈ l.map (fun x => x.id)) :
    (l.filter (fun x => some st = some x.id)).length = 1 := by
  have h1 := List.count_eq_one_of_mem hk hs
  rw [List.count_eq_countP, List.countP_map, List.countP_eq_length_filter] at h1
  rw [← h1]
  congr 1
  apply List.filter_congr
  intro x _
  by_cases h : st = x.id
  · subst h; simp
  · have h2 : ¬ x.id = st := fun e => h e.symm
    simp [h, h2]

theorem responsesRows_insert (db : Db) (d : Nat) (d0 st : Option Nat) (time : String) :
    responsesRows d (insertResponseRow db d0 st time)
      = responsesRows d db
        ++ (if d0 = some d then
            (db.students.filter (fun x => st = some x.id)).map (fun x =>
              (⟨db.responseSeq + 1, d0, st, time, x.username, x.name, x.cls⟩ : ResponseView))
          else []) := by
  by_cases h : d0 = some d
  · simp [responsesRows, insertResponseRow, List.filter_append, List.flatMap_append, h]
  · simp [responsesRows, insertResponseRow, List.filter_append, List.flatMap_append, h]

theorem responsesRows_drillId (db : Db) (d : Nat) :
    ∀ e ∈ responsesRows d db, e.drillId = some d := by
  intro e he
  simp only [responsesRows, List.mem_flatMap, List.mem_filter, List.mem_map] at he
  obtain ⟨r, ⟨_, hr⟩, x, _, rfl⟩ := he
  simpa using hr

/-- C6, as stated, fails: for the drill id 2^53 + 1 and student 3 of the
students table, POST /mark-safe succeeds but stores the row under the
rounded number 2^53, so GET /responses/9007199254740993 returns no entry. -/
theorem markSafe_large_id_example :
    3 ∈ sampleServer.db.students.map (fun x => x.id)
      ∧ (markSafe safeEnv (some 9007199254740993) (some 3) sampleServer).2.2
          = FlagResponse.success
      ∧ (markSafe safeEnv (some 9007199254740993) (some 3) sampleServer).1.db.responses
          = [⟨1, some 9007199254740992, some 3, "2026-01-01T09:00:00.000Z"⟩]
      ∧ responses false 9007199254740993
            (markSafe safeEnv (some 9007199254740993) (some 3) sampleServer).1.db
          = QueryResponse.success [] := by
  decide

/-- C6, amended: for every store state whose student ids are unique (the
primary key), every drill id d and every student s in the students table,
both at most 2^53 (so that the JSON body carries them exactly), a
successful POST /mark-safe with (d, s) followed by GET /responses/d returns a
list that contains an entry with studentId = s, in which the number of
entries referencing s is exactly one more than before the call (duplicates
are kept), and every entry of which has drillId = d. -/
theorem markSafe_then_responses (env : MarkSafeEnv) (d st : Nat) (s : Server)
    (hi : env.insertErr = false) (hd : d ≤ 2 ^ 53) (hst : st ≤ 2 ^ 53)
    (hk : (s.db.students.map (fun x => x.id)).Nodup)
    (hs : st ∈ s.db.students.map (fun x => x.id)) :
    (markSafe env (some d) (some st) s).2.2 = FlagResponse.success
      ∧ ∃ before after,
          responses false d s.db = QueryResponse.success before
            ∧ responses false d (markSafe env (some d) (some st) s).1.db = QueryResponse.success after
            ∧ (∃ e ∈ after, e.studentId = some st)
            ∧ (after.filter (fun e => e.studentId = some st)).length
                = (before.filter (fun e => e.studentId = some st)).length + 1
            ∧ (∀ e ∈ after, e.drillId = some d) := by
  have hstate : (markSafe env (some d) (some st) s).1.db
      = insertResponseRow s.db (some d) (some st) env.now := by
    simp [markSafe, hi, jsonNumber_of_le d hd, jsonNumber_of_le st hst]
  have hlen := students_filter_id_length s.db.students st hk hs
  refine ⟨by simp [markSafe, hi], responsesRows d s.db,
    responsesRows d (markSafe env (some d) (some st) s).1.db, ?_, ?_, ?_, ?_,
    responsesRows_drillId _ d⟩
  · simp [responses, urlNumber_of_le d hd]
  · simp [responses, urlNumber_of_le d hd]
  · rw [hstate, responsesRows_insert]
    simp only [if_true]
    obtain ⟨x, hx⟩ := List.exists_mem_of_length_pos
      (l := s.db.students.filter (fun x => some st = some x.id)) (by omega)
    exact ⟨⟨s.db.responseSeq + 1, some d, some st, env.now, x.username, x.name, x.cls⟩,
      List.mem_append_right _ (List.mem_map.mpr ⟨x, hx, rfl⟩), rfl⟩
  · rw [hstate, responsesRows_insert]
    simp only [if_true, List.filter_append, List.length_append, List.filter_map,
      List.length_map]
    congr 1
    rw [← hlen]
    congr 1
    rw [List.filter_filter]
    apply List.filter_congr
    intro x _
    simp

theorem markSafe_then_responses_witness :
    (markSafe safeEnv (some 1) (some 3) sampleServer).2.2 = FlagResponse.success
      ∧ ∃ before after,
          responses false 1 sampleServer.db = QueryResponse.success before
            ∧ responses false 1 (markSafe safeEnv (some 1) (some 3) sampleServer).1.db
                = QueryResponse.success after
            ∧ (∃ e ∈ after, e.studentId = some 3)
            ∧ (after.filter (fun e => e.studentId = some 3)).length
                = (before.filter (fun e => e.studentId = some 3)).length + 1
            ∧ (∀ e ∈ after, e.drillId = some 1) :=
  markSafe_then_responses safeEnv 1 3 sampleServer rfl (by decide) (by decide)
    (by decide) (by decide)

/-! ## POST /mark-safe: who hears `studentResponded` (C7) -/

/-- C7, as stated, fails: socket 8 is connected but not a member of
role:teacher, and a successful POST /mark-safe still delivers
studentResponded to it. -/
theorem markSafe_reaches_non_teacher_example :
    8 ∉ recipients sampleServer.io (Target.room "role:teacher")
      ∧ (8, "studentResponded",
            Payload.responded (some 1) (some 3) "2026-01-01T09:00:00.000Z")
          ∈ deliveries sampleServer.io (markSafe safeEnv (some 1) (some 3) sampleServer).2.1 := by
  decide

/-- C7, amended: a successful POST /mark-safe emits studentResponded
(payload drillId, studentId, time, the ids as parsed from the body) on the
whole server, so it is delivered once to every connected session, the
members of role:teacher and all others alike. -/
theorem markSafe_broadcasts_to_all (env : MarkSafeEnv) (d st : Option Nat) (s : Server)
    (hi : env.insertErr = false) :
    deliveries s.io (markSafe env d st s).2.1
      = s.io.sockets.map (fun sid => (sid, "studentResponded",
          Payload.responded (d.map jsonNumber) (st.map jsonNumber) env.now)) := by
  simp [markSafe, hi, deliveries, recipients]

theorem markSafe_broadcasts_to_all_witness :
    deliveries sampleServer.io (markSafe safeEnv (some 1) (some 3) sampleServer).2.1
      = sampleServer.io.sockets.map (fun sid => (sid, "studentResponded",
          Payload.responded ((some 1).map jsonNumber) ((some 3).map jsonNumber) safeEnv.now)) :=
  markSafe_broadcasts_to_all safeEnv (some 1) (some 3) sampleServer rfl

/-! ## The `join` message (C8) -/

theorem socketJoin_mem_self (sid : Nat) (room : String) (io : Io) :
    (room, sid) ∈ (socketJoin sid room io).rooms := by
  unfold socketJoin
  split_ifs with h
  · exact h
  · simp

theorem socketJoin_mem_mono (sid : Nat) (room : String) (io : Io) (m : String × Nat)
    (hm : m ∈ io.rooms) : m ∈ (socketJoin sid room io).rooms := by
  unfold socketJoin
  split_ifs
  · exact hm
  · exact List.mem_append_left _ hm

theorem socketJoin_of_mem (sid : Nat) (room : String) (io : Io)
    (h : (room, sid) ∈ io.rooms) : socketJoin sid room io = io := by
  simp [socketJoin, h]

theorem socketJoin_nodup (sid : Nat) (room : String) (io : Io) (hn : io.rooms.Nodup) :
    (socketJoin sid room io).rooms.Nodup := by
  unfold socketJoin
  split_ifs with h
  · exact hn
  · refine List.Nodup.append hn (List.nodup_singleton _) ?_
    intro m hm hm2
    rw [List.mem_singleton] at hm2
    exact h (hm2 ▸ hm)

theorem join_nodup (sid : Nat) (data : Option JoinData) (io : Io) (hn : io.rooms.Nodup) :
    (join sid data io).rooms.Nodup := by
  cases data with
  | none => exact hn
  | some d =>
    simp only [join]
    split_ifs
    · exact socketJoin_nodup _ _ _ (socketJoin_nodup _ _ _ hn)
    · exact socketJoin_nodup _ _ _ hn
    · exact socketJoin_nodup _ _ _ hn
    · exact hn

theorem room_count_zero (l : List (String × Nat)) (key : String) (sid : Nat)
    (h : (key, sid) ∉ l) :
    ((l.filter (fun m => m.1 = key)).map (fun m => m.2)).count sid = 0 := by
  rw [List.count_eq_zero]
  intro hm
  simp only [List.mem_map, List.mem_filter, decide_eq_true_eq] at hm
  obtain ⟨⟨k, i⟩, ⟨hl, hk⟩, hi⟩ := hm
  simp only at hk hi
  subst hk; subst hi
  exact h hl

theorem room_count_one (l : List (String × Nat)) (key : String) (sid : Nat)
    (hn : l.Nodup) (h : (key, sid) ∈ l) :
    ((l.filter (fun m => m.1 = key)).map (fun m => m.2)).count sid = 1 := by
  induction l with
  | nil => simp at h
  | cons m l ih =>
    rw [List.nodup_cons] at hn
    rcases List.mem_cons.mp h with h1 | h1
    · subst h1
      have hz := room_count_zero l key sid hn.1
      simp [List.filter_cons, hz]
    · have hne : m ≠ (key, sid) := fun e => hn.1 (e ▸ h1)
      have hrec := ih hn.2 h1
      obtain ⟨k, i⟩ := m
      by_cases hk : k = key
      · have hi : i ≠ sid := fun e => hne (by rw [hk, e])
        simp [List.filter_cons, hk, List.count_cons, hi, hrec]
      · simp [List.filter_cons, hk, hrec]

/-- C8, as stated, fails: a join message whose role (and class) is the
empty string leaves the session outside every room, so it is a member
neither of room role:<role> nor of class:<class>. -/
theorem join_empty_role_example :
    join 1 (some ⟨some "", some ""⟩) ⟨[1], []⟩ = ⟨[1], []⟩
      ∧ 1 ∉ recipients (join 1 (some ⟨some "", some ""⟩) ⟨[1], []⟩) (Target.room "role:")
      ∧ 1 ∉ recipients (join 1 (some ⟨some "", some ""⟩) ⟨[1], []⟩) (Target.room "class:") := by
  decide

/-- C8, amended: for every room-membership state without duplicate entries,
every session and every join message, handling the message twice gives the
same membership as handling it once; after one join the session is a member
of role:<role> when role is non-empty and of class:<class> when class is
non-null and non-empty, and a broadcast to either room is then delivered to
that session exactly once. -/
theorem join_idempotent (sid : Nat) (data : Option JoinData) (io : Io)
    (hn : io.rooms.Nodup) :
    join sid data (join sid data io) = join sid data io
      ∧ (∀ d, data = some d → truthy d.role = true →
          ("role:" ++ interp d.role, sid) ∈ (join sid data io).rooms
            ∧ (recipients (join sid data io) (Target.room ("role:" ++ interp d.role))).count sid
                = 1)
      ∧ (∀ d, data = some d → truthy d.cls = true →
          ("class:" ++ interp d.cls, sid) ∈ (join sid data io).rooms
            ∧ (recipients (join sid data io) (Target.room ("class:" ++ interp d.cls))).count sid
                = 1) := by
  have hcount : ∀ key, (key, sid) ∈ (join sid data io).rooms →
      (recipients (join sid data io) (Target.room key)).count sid = 1 := by
    intro key hk
    exact room_count_one _ key sid (join_nodup sid data io hn) hk
  refine ⟨?_, ?_, ?_⟩
  · cases data with
    | none => rfl
    | some d =>
      simp only [join]
      cases hc : truthy d.cls <;> cases hr : truthy d.role <;> simp only [if_true, if_false,
        Bool.false_eq_true]
      · exact socketJoin_of_mem _ _ _ (socketJoin_mem_self _ _ _)
      · exact socketJoin_of_mem _ _ _ (socketJoin_mem_self _ _ _)
      · rw [socketJoin_of_mem sid ("class:" ++ interp d.cls)
          (socketJoin sid ("role:" ++ interp d.role) (socketJoin sid ("class:" ++ interp d.cls) io))
          (socketJoin_mem_mono _ _ _ _ (socketJoin_mem_self _ _ _))]
        exact socketJoin_of_mem _ _ _ (socketJoin_mem_self _ _ _)
  · intro d hd hr
    subst hd
    have hm : ("role:" ++ interp d.role, sid) ∈ (join sid (some d) io).rooms := by
      simp only [join, hr, if_true]
      exact socketJoin_mem_self _ _ _
    exact ⟨hm, hcount _ hm⟩
  · intro d hd hc
    subst hd
    have hm : ("class:" ++ interp d.cls, sid) ∈ (join sid (some d) io).rooms := by
      simp only [join, hc, if_true]
      split_ifs
      · exact socketJoin_mem_mono _ _ _ _ (socketJoin_mem_self _ _ _)
      · exact socketJoin_mem_self _ _ _
    exact ⟨hm, hcount _ hm⟩

theorem join_idempotent_witness :
    sampleServer.io.rooms.Nodup
      ∧ (join 8 (some ⟨some "student", some "ClassA"⟩)
            (join 8 (some ⟨some "student", some "ClassA"⟩) sampleServer.io)
          = join 8 (some ⟨some "student", some "ClassA"⟩) sampleServer.io
      ∧ (∀ d, some (⟨some "student", some "ClassA"⟩ : JoinData) = some d → truthy d.role = true →
          ("role:" ++ interp d.role, 8)
              ∈ (join 8 (some ⟨some "student", some "ClassA"⟩) sampleServer.io).rooms
            ∧ (recipients (join 8 (some ⟨some "student", some "ClassA"⟩) sampleServer.io)
                (Target.room ("role:" ++ interp d.role))).count 8 = 1)
      ∧ (∀ d, some (⟨some "student", some "ClassA"⟩ : JoinData) = some d → truthy d.cls = true →
          ("class:" ++ interp d.cls, 8)
              ∈ (join 8 (some ⟨some "student", some "ClassA"⟩) sampleServer.io).rooms
            ∧ (recipients (join 8 (some ⟨some "student", some "ClassA"⟩) sampleServer.io)
                (Target.room ("class:" ++ interp d.cls))).count 8 = 1)) :=
  ⟨by decide, join_idempotent 8 (some ⟨some "student", some "ClassA"⟩) sampleServer.io
    (by decide)⟩

/-! ## POST /login (C10) -/

/-- C10: POST /login queries the teachers table exactly when the request's
role is the string "teacher" and the students table for every other role
value: with role "teacher" the answer is decided by the row of `teachers`
with that username (not found, wrong password, or success), with any other
role by the row of `students`; a successful login returns the role the
request supplied; so a valid student username and password sent with role
"admin" logs in as a user whose role is "admin". -/
theorem login_role_unchecked (env : LoginEnv) (req : LoginReq) (db : Db) :
    ((login env req db).1 = Table.teachers ↔ req.role = some "teacher")
      ∧ ((login env req db).1 = Table.students ↔ req.role ≠ some "teacher")
      ∧ (∀ u, (login env req db).2 = LoginResponse.success u → u.role = req.role)
      ∧ (∀ (row : StudentRow) (username : String), env.getErr = false →
          db.students.find? (fun t => t.username = username) = some row →
          env.compareSync req.password row.password = true →
          login env ⟨some "admin", some username, req.password⟩ db
            = (Table.students, LoginResponse.success
                ⟨row.id, row.username, orDefault row.name row.username, row.cls, some "admin"⟩))
      ∧ (req.role = some "teacher" → env.getErr = false → ∀ u, req.username = some u →
          (login env req db).2
            = match db.teachers.find? (fun t => t.username = u) with
              | none => LoginResponse.failure "User not found"
              | some row =>
                if env.compareSync req.password row.password then
                  LoginResponse.success
                    ⟨row.id, row.username, orDefault row.name row.username, none, req.role⟩
                else LoginResponse.failure "Wrong password")
      ∧ (req.role ≠ some "teacher" → env.getErr = false → ∀ u, req.username = some u →
          (login env req db).2
            = match db.students.find? (fun t => t.username = u) with
              | none => LoginResponse.failure "User not found"
              | some row =>
                if env.compareSync req.password row.password then
                  LoginResponse.success
                    ⟨row.id, row.username, orDefault row.name row.username, row.cls, req.role⟩
                else LoginResponse.failure "Wrong password") := by
  have htab : (login env req db).1 = loginTable req.role := by
    simp only [login]
    split_ifs
    · rfl
    · split
      · rfl
      · split_ifs <;> rfl
  refine ⟨?_, ?_, ?_, ?_, ?_, ?_⟩
  · rw [htab]
    unfold loginTable
    split_ifs with h <;> simp [h]
  · rw [htab]
    unfold loginTable
    split_ifs with h <;> simp [h]
  · intro u hu
    simp only [login] at hu
    split_ifs at hu
    split at hu
    · cases hu
    · split_ifs at hu
      cases hu
      rfl
  · intro row username hg hf hcmp
    have ht : loginTable (some "admin") = Table.students := by decide
    simp [login, ht, hg, getByUsername, hf, hcmp]
  · intro hr hg u hu
    have ht : loginTable req.role = Table.teachers := by simp [loginTable, hr]
    cases hf : db.teachers.find? (fun t => t.username = u) with
    | none => simp [login, ht, hg, getByUsername, hu, hf]
    | some row =>
      cases hcmp : env.compareSync req.password row.password <;>
        simp [login, ht, hg, getByUsername, hu, hf, hcmp]
  · intro hr hg u hu
    have ht : loginTable req.role = Table.students := by simp [loginTable, hr]
    cases hf : db.students.find? (fun t => t.username = u) with
    | none => simp [login, ht, hg, getByUsername, hu, hf]
    | some row =>
      cases hcmp : env.compareSync req.password row.password <;>
        simp [login, ht, hg, getByUsername, hu, hf, hcmp]

theorem login_role_unchecked_witness :
    login ⟨false, fun p h => p == "2010-05-01" && h == "h3"⟩
        ⟨some "admin", some "u3", "2010-05-01"⟩ staffDb
      = (Table.students, LoginResponse.success ⟨3, "u3", "Chitra", some "ClassA", some "admin"⟩)
    ∧ (login ⟨false, fun p h => p == "secret" && h == "t3"⟩
        ⟨some "teacher", some "u3", "secret"⟩ staffDb).2
      = LoginResponse.success ⟨1, "u3", "Ms Rao", none, some "teacher"⟩
    ∧ (login ⟨false, fun p h => p == "secret" && h == "t3"⟩
        ⟨some "student", some "u3", "secret"⟩ staffDb).2
      = LoginResponse.failure "Wrong password" :=
  ⟨(login_role_unchecked ⟨false, fun p h => p == "2010-05-01" && h == "h3"⟩
      ⟨some "admin", some "u3", "2010-05-01"⟩ staffDb).2.2.2.1
      ⟨3, "u3", "h3", some "Chitra", some "ClassA", some "+913"⟩ "u3" rfl (by decide) (by decide),
    (login_role_unchecked ⟨false, fun p h => p == "secret" && h == "t3"⟩
      ⟨some "teacher", some "u3", "secret"⟩ staffDb).2.2.2.2.1 rfl rfl "u3" rfl,
    (login_role_unchecked ⟨false, fun p h => p == "secret" && h == "t3"⟩
      ⟨some "student", some "u3", "secret"⟩ staffDb).2.2.2.2.2 (by decide) rfl "u3" rfl⟩

end DrillAlert
